import Mathlib

/-!
Verification of the `negativeviewportheight` Vulkan example
(src/examples/negativeviewportheight/negativeviewportheight.cpp).

The development shallowly embeds the example's data model and operations:
the viewport policy of `buildCommandBuffers`, the command sequence it
records, the pipeline rebuild in `preparePipelines`, the UI dispatch in
`OnUpdateUIOverlay`, and the quad geometry built in `loadAssets`.
All quantities involved are exact (integer offsets and framebuffer sizes,
literal vertex data over the rationals), so floats are modelled by `Int`
and `ℚ`.
-/

namespace NegViewport

/-- Vulkan enum numeric values, from the Vulkan headers:
VK_CULL_MODE_NONE = 0, VK_CULL_MODE_FRONT_BIT = 1, VK_CULL_MODE_BACK_BIT = 2. -/
def vkCullModeNone : Int := 0

/-- VK_CULL_MODE_FRONT_BIT = 1 (Vulkan headers). -/
def vkCullModeFrontBit : Int := 1

/-- VK_CULL_MODE_BACK_BIT = 2 (Vulkan headers). -/
def vkCullModeBackBit : Int := 2

/-- Front-face enum (VK_FRONT_FACE_COUNTER_CLOCKWISE = 0, VK_FRONT_FACE_CLOCKWISE = 1). -/
inductive VkFrontFace where
  | counterClockwise
  | clockwise
deriving DecidableEq, Repr

/-- Cull-mode enum values as symbolic constructors. -/
inductive VkCullMode where
  | flagNone
  | frontBit
  | backBit
  | frontAndBack
deriving DecidableEq, Repr

/-- Numeric value of each cull-mode enum constant (Vulkan headers). -/
def VkCullMode.toInt : VkCullMode → Int
  | .flagNone => 0
  | .frontBit => 1
  | .backBit => 2
  | .frontAndBack => 3

/-- The mutable UI-driven parameters of `VulkanExample` (lines 31-36). -/
structure Config where
  negativeViewport : Bool
  offsety : Int
  offsetx : Int
  windingOrder : Int
  cullMode : Int
  quadType : Int
deriving DecidableEq, Repr

/-- The member initializers of `VulkanExample` (lines 31-36):
`negativeViewport = true; offsety = 0; offsetx = 0; windingOrder = 1;
cullMode = (int32_t)VK_CULL_MODE_BACK_BIT; quadType = 0;`. -/
def initialConfig : Config where
  negativeViewport := true
  offsety := 0
  offsetx := 0
  windingOrder := 1
  cullMode := vkCullModeBackBit
  quadType := 0

/-- A `VkViewport` as filled in by `buildCommandBuffers`; every field the code
writes is an exact integer value, so the float fields are modelled by `Int`. -/
structure Viewport where
  x : Int
  y : Int
  width : Int
  height : Int
  minDepth : Int
  maxDepth : Int
deriving DecidableEq, Repr

/-- The viewport setup of `buildCommandBuffers` (lines 108-123): when
`negativeViewport` is set, `x = offsetx`, `y = height - offsety`,
`width = width`, `height = -height`; otherwise `x = offsetx`, `y = offsety`,
`width = width`, `height = height`; in both cases `minDepth = 0`,
`maxDepth = 1`. -/
def computeViewport (flip : Bool) (offsetx offsety : Int) (fbWidth fbHeight : Nat) : Viewport :=
  if flip then
    { x := offsetx, y := (fbHeight : Int) - offsety, width := (fbWidth : Int),
      height := -(fbHeight : Int), minDepth := 0, maxDepth := 1 }
  else
    { x := offsetx, y := offsety, width := (fbWidth : Int),
      height := (fbHeight : Int), minDepth := 0, maxDepth := 1 }

/-- The viewport recorded into a frame for a given configuration (line 124). -/
def viewportOf (cfg : Config) (fbWidth fbHeight : Nat) : Viewport :=
  computeViewport cfg.negativeViewport cfg.offsetx cfg.offsety fbWidth fbHeight

/-- The two descriptor sets of the example (struct DescriptorSets, lines 41-44). -/
inductive DescriptorSetId where
  | CW
  | CCW
deriving DecidableEq, Repr

/-- The two index buffers of the quad (struct Quad, lines 51-62). -/
inductive IndexBufferId where
  | indicesCW
  | indicesCCW
deriving DecidableEq, Repr

/-- The two vertex buffers of the quad (struct Quad, lines 51-62). -/
inductive VertexBufferId where
  | verticesYDown
  | verticesYUp
deriving DecidableEq, Repr

/-- The vertex-buffer selection of line 135:
`quadType == 0 ? &quad.verticesYDown.buffer : &quad.verticesYUp.buffer`. -/
def vertexBufferChoice (quadType : Int) : VertexBufferId :=
  if quadType == 0 then .verticesYDown else .verticesYUp

/-- A command recorded into a draw command buffer by `buildCommandBuffers`. -/
inductive Cmd where
  | beginRenderPass
  | bindPipeline (handle : Nat)
  | setViewport (vp : Viewport)
  | setScissor (w h : Nat)
  | bindDescriptorSets (d : DescriptorSetId)
  | bindIndexBuffer (b : IndexBufferId)
  | bindVertexBuffers (v : VertexBufferId)
  | drawIndexed (indexCount instanceCount : Nat)
  | drawUI
  | endRenderPass
deriving DecidableEq, Repr

/-- The per-frame command sequence recorded by `buildCommandBuffers`
(lines 103-144), in source order. -/
def recordFrame (cfg : Config) (pipeline : Nat) (fbWidth fbHeight : Nat) : List Cmd :=
  [ .beginRenderPass,
    .bindPipeline pipeline,
    .setViewport (viewportOf cfg fbWidth fbHeight),
    .setScissor fbWidth fbHeight,
    .bindDescriptorSets .CW,
    .bindIndexBuffer .indicesCW,
    .bindVertexBuffers (vertexBufferChoice cfg.quadType),
    .drawIndexed 6 1,
    .bindDescriptorSets .CCW,
    .bindIndexBuffer .indicesCCW,
    .drawIndexed 6 1,
    .drawUI,
    .endRenderPass ]

/-- The bindings in effect at a point of a command sequence. -/
structure Bindings where
  descriptor : Option DescriptorSetId
  indexBuffer : Option IndexBufferId
  vertexBuffer : Option VertexBufferId
deriving DecidableEq, Repr

/-- An indexed draw call together with the bindings in effect when it was issued. -/
structure DrawCall where
  bindings : Bindings
  indexCount : Nat
  instanceCount : Nat
deriving DecidableEq, Repr

/-- Walks a command sequence tracking the current bindings and collects
every indexed draw together with the bindings in effect. -/
def drawCallsAux : Bindings → List Cmd → List DrawCall
  | _, [] => []
  | b, c :: cs =>
    match c with
    | .bindDescriptorSets d => drawCallsAux { b with descriptor := some d } cs
    | .bindIndexBuffer i => drawCallsAux { b with indexBuffer := some i } cs
    | .bindVertexBuffers v => drawCallsAux { b with vertexBuffer := some v } cs
    | .drawIndexed n m => ⟨b, n, m⟩ :: drawCallsAux b cs
    | _ => drawCallsAux b cs

/-- The indexed draw calls of a command sequence, with their bindings. -/
def drawCalls (cs : List Cmd) : List DrawCall :=
  drawCallsAux ⟨none, none, none⟩ cs

/-- A vertex of the quad (struct Vertex, lines 156-159): a 3-component
position and a 2-component texture coordinate. The literal data is exact,
so the float components are modelled by `ℚ`. -/
structure Vertex where
  pos : ℚ × ℚ × ℚ
  uv : ℚ × ℚ
deriving DecidableEq, Repr, Inhabited

/-- The OpenGL-style quad (y points upwards), `verticesYPos` of lines 164-169,
parameterised by the aspect ratio `ar = height / width`. -/
def verticesYPos (ar : ℚ) : List Vertex :=
  [ ⟨(-1 * ar, 1, 1), (0, 1)⟩,
    ⟨(-1 * ar, -1, 1), (0, 0)⟩,
    ⟨(1 * ar, -1, 1), (1, 0)⟩,
    ⟨(1 * ar, 1, 1), (1, 1)⟩ ]

/-- The Vulkan-style quad (y points downwards), `verticesYNeg` of lines 172-177. -/
def verticesYNeg (ar : ℚ) : List Vertex :=
  [ ⟨(-1 * ar, -1, 1), (0, 1)⟩,
    ⟨(-1 * ar, 1, 1), (0, 0)⟩,
    ⟨(1 * ar, 1, 1), (1, 0)⟩,
    ⟨(1 * ar, -1, 1), (1, 1)⟩ ]

/-- The index data uploaded into `quad.indicesCCW` (line 187): `{2, 1, 0, 0, 3, 2}`. -/
def ccwIndexData : List Nat := [2, 1, 0, 0, 3, 2]

/-- The index data uploaded into `quad.indicesCW` (line 190): `{0, 1, 2, 2, 3, 0}`. -/
def cwIndexData : List Nat := [0, 1, 2, 2, 3, 0]

/-- Consecutive index triples of an index list (triangle-list topology,
VK_PRIMITIVE_TOPOLOGY_TRIANGLE_LIST of line 226). -/
def triangles : List Nat → List (Nat × Nat × Nat)
  | a :: b :: c :: rest => (a, b, c) :: triangles rest
  | _ => []

/-- The 2D projection of a vertex position (its x and y components). -/
def pos2 (v : Vertex) : ℚ × ℚ := (v.pos.1, v.pos.2.1)

/-- Right-handed 2D orientation test: twice the signed area of the triangle
`p q r`; positive means counter-clockwise, negative means clockwise. -/
def orient2 (p q r : ℚ × ℚ) : ℚ :=
  (q.1 - p.1) * (r.2 - p.2) - (q.2 - p.2) * (r.1 - p.1)

/-- The signed-area orientation of an index triple over a vertex list. -/
def triOrient (vs : List Vertex) (t : Nat × Nat × Nat) : ℚ :=
  orient2 (pos2 (vs.getD t.1 default)) (pos2 (vs.getD t.2.1 default))
    (pos2 (vs.getD t.2.2 default))

/-- Pipeline-lifetime events issued by `preparePipelines`. -/
inductive PipelineEvent where
  | destroy (handle : Nat)
  | create (handle : Nat)
deriving DecidableEq, Repr

/-- VK_NULL_HANDLE, the initial value of `pipeline` (line 39). -/
def vkNullHandle : Nat := 0

/-- The pipeline replacement performed by `preparePipelines` (lines 219-275):
first, if the current handle is not VK_NULL_HANDLE, `vkDestroyPipeline` is
called on it (lines 220-222); afterwards `vkCreateGraphicsPipelines` stores a
new handle into `pipeline` (line 274). Returns the new handle and the ordered
event trace. `freshHandle` stands for the handle the driver returns. -/
def preparePipelines (oldPipeline freshHandle : Nat) : Nat × List PipelineEvent :=
  let destroyEvents :=
    if oldPipeline ≠ vkNullHandle then [PipelineEvent.destroy oldPipeline] else []
  (freshHandle, destroyEvents ++ [PipelineEvent.create freshHandle])

/-- The front-face selection of line 239:
`windingOrder == 0 ? VK_FRONT_FACE_CLOCKWISE : VK_FRONT_FACE_COUNTER_CLOCKWISE`. -/
def frontFaceOf (windingOrder : Int) : VkFrontFace :=
  if windingOrder == 0 then .clockwise else .counterClockwise

/-- The cull-mode computation of line 238: `VK_CULL_MODE_NONE + cullMode`,
integer arithmetic on the enum value. -/
def cullModeValue (cullMode : Int) : Int :=
  vkCullModeNone + cullMode

/-- A parameter-change event reported by a UI widget in `OnUpdateUIOverlay`
(lines 300-329), carrying the new value. -/
inductive UIEvent where
  | quadTypeChanged (v : Int)
  | negativeViewportChanged (v : Bool)
  | offsetxChanged (v : Int)
  | offsetyChanged (v : Int)
  | windingOrderChanged (v : Int)
  | cullModeChanged (v : Int)
deriving DecidableEq, Repr

/-- The rebuild calls a UI change can trigger. -/
inductive RebuildAction where
  | rebuildPipeline
  | rerecordCommands
deriving DecidableEq, Repr

/-- The dispatch of `OnUpdateUIOverlay` (lines 300-329): quadType,
negativeViewport, offsetx and offsety changes call `buildCommandBuffers()`;
windingOrder and cullMode changes call `preparePipelines()`. -/
def uiDispatch : UIEvent → List RebuildAction
  | .quadTypeChanged _ => [.rerecordCommands]
  | .negativeViewportChanged _ => [.rerecordCommands]
  | .offsetxChanged _ => [.rerecordCommands]
  | .offsetyChanged _ => [.rerecordCommands]
  | .windingOrderChanged _ => [.rebuildPipeline]
  | .cullModeChanged _ => [.rebuildPipeline]

/-- Whether a UI event is one of the two pipeline-affecting ones
(windingOrder or cullMode). -/
def UIEvent.isPipelineChange : UIEvent → Bool
  | .windingOrderChanged _ => true
  | .cullModeChanged _ => true
  | _ => false

/-- The assignment a UI widget performs on its bound field before its change
handler runs (lines 303, 309, 312, 315, 321, 325). -/
def updateConfig (c : Config) : UIEvent → Config
  | .quadTypeChanged v => { c with quadType := v }
  | .negativeViewportChanged v => { c with negativeViewport := v }
  | .offsetxChanged v => { c with offsetx := v }
  | .offsetyChanged v => { c with offsety := v }
  | .windingOrderChanged v => { c with windingOrder := v }
  | .cullModeChanged v => { c with cullMode := v }

/-- The demo state the UI loop mutates: the configuration, the current
pipeline handle, a fresh-handle supply standing for the driver's allocation,
and the currently recorded per-frame command sequence. -/
structure DemoState where
  cfg : Config
  pipeline : Nat
  nextHandle : Nat
  commands : List Cmd
  fbWidth : Nat
  fbHeight : Nat
deriving DecidableEq, Repr

/-- Effect of one rebuild call on the demo state: `preparePipelines()`
replaces the pipeline handle; `buildCommandBuffers()` re-records the command
sequence from the current configuration and pipeline. -/
def applyAction (s : DemoState) : RebuildAction → DemoState
  | .rebuildPipeline =>
    { s with pipeline := (preparePipelines s.pipeline s.nextHandle).1,
             nextHandle := s.nextHandle + 1 }
  | .rerecordCommands =>
    { s with commands := recordFrame s.cfg s.pipeline s.fbWidth s.fbHeight }

/-- One UI interaction: the widget stores the new value, then its change
handler runs the rebuild calls of `uiDispatch`. -/
def applyUIEvent (s : DemoState) (e : UIEvent) : DemoState :=
  (uiDispatch e).foldl applyAction { s with cfg := updateConfig s.cfg e }

/-- C1: for every integer offsets and framebuffer size, the viewport recorded
into a frame is: flip off, origin (offsetX, offsetY) with extent
(fbWidth, +fbHeight); flip on, origin (offsetX, fbHeight - offsetY) with
extent (fbWidth, -fbHeight); in particular flip on with offsets 0 on an
800x600 framebuffer yields x 0, y 600, width 800, height -600. -/
theorem C1_viewport_policy (ox oy : Int) (w h : Nat) :
    computeViewport false ox oy w h =
      { x := ox, y := oy, width := (w : Int), height := (h : Int),
        minDepth := 0, maxDepth := 1 } ∧
    computeViewport true ox oy w h =
      { x := ox, y := (h : Int) - oy, width := (w : Int), height := -(h : Int),
        minDepth := 0, maxDepth := 1 } ∧
    computeViewport true 0 0 800 600 =
      { x := 0, y := 600, width := 800, height := -600,
        minDepth := 0, maxDepth := 1 } := by
  refine ⟨by simp [computeViewport], by simp [computeViewport], by decide⟩

/-- C8: for all offsets and framebuffer sizes, the flipped viewport's height
is the negation of the unflipped one's, and its Y origin is fbHeight - offsetY. -/
theorem C8_flip_algebra (ox oy : Int) (w h : Nat) :
    (computeViewport true ox oy w h).height = -(computeViewport false ox oy w h).height ∧
    (computeViewport true ox oy w h).y = (h : Int) - oy := by
  simp [computeViewport]

/-- C9: the construction-time defaults are flipped viewport enabled, offsets
zero, windingOrder 1 (counter-clockwise front face), cull mode back, and the
Vulkan-style Y-down vertex buffer selected (quadType 0). -/
theorem C9_defaults :
    initialConfig.negativeViewport = true ∧
    initialConfig.offsetx = 0 ∧
    initialConfig.offsety = 0 ∧
    initialConfig.windingOrder = 1 ∧
    frontFaceOf initialConfig.windingOrder = VkFrontFace.counterClockwise ∧
    initialConfig.cullMode = VkCullMode.backBit.toInt ∧
    initialConfig.quadType = 0 ∧
    vertexBufferChoice initialConfig.quadType = VertexBufferId.verticesYDown := by
  decide

/-- C10: for every configuration (any flip flag, offsets, orientation toggle,
winding order and cull mode), the viewport recorded into the frame has
minDepth 0 and maxDepth 1, its X origin is offsetX and its width is the
framebuffer width; only the Y origin and the sign of the height depend on
the flip flag. -/
theorem C10_viewport_invariants (cfg : Config) (p w h : Nat) :
    Cmd.setViewport (viewportOf cfg w h) ∈ recordFrame cfg p w h ∧
    (viewportOf cfg w h).minDepth = 0 ∧
    (viewportOf cfg w h).maxDepth = 1 ∧
    (viewportOf cfg w h).x = cfg.offsetx ∧
    (viewportOf cfg w h).width = (w : Int) ∧
    (viewportOf cfg w h).y =
      (if cfg.negativeViewport then (h : Int) - cfg.offsety else cfg.offsety) ∧
    (viewportOf cfg w h).height =
      (if cfg.negativeViewport then -(h : Int) else (h : Int)) := by
  refine ⟨by simp [recordFrame], ?_, ?_, ?_, ?_, ?_, ?_⟩ <;>
    cases hc : cfg.negativeViewport <;>
      simp [viewportOf, computeViewport, hc]

/-- C7: the pipeline build maps windingOrder 0 to a clockwise front face and
any other value to counter-clockwise, and the integer computation
VK_CULL_MODE_NONE + s sends the selectors 0, 1, 2 to the numeric values of
the None, Front and Back cull-mode enum constants. -/
theorem C7_enum_mapping :
    frontFaceOf 0 = VkFrontFace.clockwise ∧
    (∀ w : Int, w ≠ 0 → frontFaceOf w = VkFrontFace.counterClockwise) ∧
    cullModeValue 0 = VkCullMode.flagNone.toInt ∧
    cullModeValue 1 = VkCullMode.frontBit.toInt ∧
    cullModeValue 2 = VkCullMode.backBit.toInt := by
  refine ⟨rfl, ?_, rfl, rfl, rfl⟩
  intro w hw
  simp [frontFaceOf, hw]

/-- Witness for C7 at the concrete windingOrder value 5. -/
theorem C7_enum_mapping_witness :
    frontFaceOf 5 = VkFrontFace.counterClockwise :=
  C7_enum_mapping.2.1 5 (by decide)

/-- C6: every recorded frame contains exactly two indexed draws, each with
indexCount 6 and instanceCount 1; the first is issued with the CW descriptor
set and the CW index buffer bound, the second with the CCW descriptor set and
the CCW index buffer, and both see the same vertex buffer, the Y-down one when
quadType is 0 and the Y-up one otherwise. -/
theorem C6_two_draws (cfg : Config) (p w h : Nat) :
    drawCalls (recordFrame cfg p w h) =
      [ { bindings :=
            { descriptor := some .CW, indexBuffer := some .indicesCW,
              vertexBuffer := some (vertexBufferChoice cfg.quadType) },
          indexCount := 6, instanceCount := 1 },
        { bindings :=
            { descriptor := some .CCW, indexBuffer := some .indicesCCW,
              vertexBuffer := some (vertexBufferChoice cfg.quadType) },
          indexCount := 6, instanceCount := 1 } ] ∧
    (vertexBufferChoice cfg.quadType =
      if cfg.quadType == 0 then VertexBufferId.verticesYDown
      else VertexBufferId.verticesYUp) := by
  exact ⟨by simp [drawCalls, drawCallsAux, recordFrame], rfl⟩

/-- A concrete demo state as left by `prepare()` on an 800x600 framebuffer:
the first pipeline got handle 1, the next driver handle is 2, and the
commands were recorded for the initial configuration and pipeline 1. -/
def demoState0 : DemoState where
  cfg := initialConfig
  pipeline := 1
  nextHandle := 2
  commands := recordFrame initialConfig 1 800 600
  fbWidth := 800
  fbHeight := 600

/-- C2 counterexample: rebuilding while pipeline handle 1 is live (fresh
handle 2) yields the event trace [destroy 1, create 2] - the old pipeline is
destroyed before the new one is created, so it does not remain valid until
the new creation succeeds, contrary to the claim. -/
theorem C2_counterexample :
    (preparePipelines 1 2).2 = [PipelineEvent.destroy 1, PipelineEvent.create 2] ∧
    (preparePipelines 1 2).2.head? = some (PipelineEvent.destroy 1) := by
  decide

/-- C2 amended: during a pipeline rebuild with an existing (non-null) handle,
the old handle is destroyed first and only afterwards is the new pipeline
created (destroy-then-create), and the new handle becomes current. -/
theorem C2_rebuild_order (oldP newP : Nat) (h : oldP ≠ vkNullHandle) :
    (preparePipelines oldP newP).2 =
      [PipelineEvent.destroy oldP, PipelineEvent.create newP] ∧
    (preparePipelines oldP newP).1 = newP := by
  simp [preparePipelines, h]

/-- Witness for C2 at the concrete handles 3 (old) and 4 (new). -/
theorem C2_rebuild_order_witness :
    (preparePipelines 3 4).2 = [PipelineEvent.destroy 3, PipelineEvent.create 4] ∧
    (preparePipelines 3 4).1 = 4 :=
  C2_rebuild_order 3 4 (by decide)

/-- C3 counterexample: a windingOrder change triggers only `preparePipelines()`
and no `buildCommandBuffers()`; concretely, applying a windingOrder change to
the post-prepare state leaves the recorded command sequence unchanged (it
still binds the old pipeline handle), contrary to the claimed re-record. -/
theorem C3_counterexample :
    uiDispatch (UIEvent.windingOrderChanged 0) = [RebuildAction.rebuildPipeline] ∧
    RebuildAction.rerecordCommands ∉ uiDispatch (UIEvent.windingOrderChanged 0) ∧
    (applyUIEvent demoState0 (UIEvent.windingOrderChanged 0)).commands =
      demoState0.commands ∧
    (applyUIEvent demoState0 (UIEvent.windingOrderChanged 0)).pipeline ≠
      demoState0.pipeline := by
  decide

/-- C3 amended: a windingOrder or cullMode change produces a newly created
pipeline handle distinct from the previous one but does NOT re-record the
frame command sequence; a viewport-only change (offsets, flip flag,
orientation toggle) creates no new pipeline handle and re-records the command
sequence from the updated configuration. -/
theorem C3_rebuild_dispatch (s : DemoState) (e : UIEvent)
    (h : s.pipeline < s.nextHandle) :
    (e.isPipelineChange = true →
      (applyUIEvent s e).pipeline = s.nextHandle ∧
      (applyUIEvent s e).pipeline ≠ s.pipeline ∧
      (applyUIEvent s e).commands = s.commands) ∧
    (e.isPipelineChange = false →
      (applyUIEvent s e).pipeline = s.pipeline ∧
      (applyUIEvent s e).commands =
        recordFrame (updateConfig s.cfg e) s.pipeline s.fbWidth s.fbHeight) := by
  cases e <;>
    simp [applyUIEvent, uiDispatch, UIEvent.isPipelineChange, applyAction,
      preparePipelines, updateConfig] <;>
    omega

/-- Witness for C3 at the post-prepare state and a windingOrder change. -/
theorem C3_rebuild_dispatch_witness :
    (applyUIEvent demoState0 (UIEvent.windingOrderChanged 0)).pipeline =
      demoState0.nextHandle ∧
    (applyUIEvent demoState0 (UIEvent.windingOrderChanged 0)).pipeline ≠
      demoState0.pipeline ∧
    (applyUIEvent demoState0 (UIEvent.windingOrderChanged 0)).commands =
      demoState0.commands :=
  (C3_rebuild_dispatch demoState0 (UIEvent.windingOrderChanged 0) (by decide)).1 rfl

/-- C4 counterexample: at aspect ratio 1, the triangle (2, 1, 0) of the index
order [2, 1, 0, 0, 3, 2] over the corners [(-1,1), (-1,-1), (1,-1), (1,1)]
has signed area -4 < 0, i.e. it is clockwise under the right-handed
orientation test, contrary to the claimed counter-clockwise label. -/
theorem C4_counterexample :
    (0 : ℚ) < 1 ∧
    ¬ (∀ t ∈ triangles ccwIndexData, 0 < triOrient (verticesYPos 1) t) ∧
    triOrient (verticesYPos 1) (2, 1, 0) = -4 := by
  have h : triOrient (verticesYPos 1) (2, 1, 0) = -4 := by
    norm_num [triOrient, verticesYPos, orient2, pos2]
  refine ⟨by norm_num, ?_, h⟩
  intro hall
  have hmem : (2, 1, 0) ∈ triangles ccwIndexData := by decide
  have := hall (2, 1, 0) hmem
  rw [h] at this
  norm_num at this

/-- C4 amended: for the fixed quad corners [(-a,1), (-a,-1), (a,-1), (a,1)]
with a > 0, the index order [2, 1, 0, 0, 3, 2] yields triangles of CLOCKWISE
orientation and [0, 1, 2, 2, 3, 0] yields triangles of COUNTER-CLOCKWISE
orientation under the right-handed signed-area test (the source's CCW/CW
buffer names refer to Vulkan's y-down framebuffer convention, which flips
the right-handed sign). -/
theorem C4_winding_orientation (a : ℚ) (ha : 0 < a) :
    (∀ t ∈ triangles ccwIndexData, triOrient (verticesYPos a) t < 0) ∧
    (∀ t ∈ triangles cwIndexData, 0 < triOrient (verticesYPos a) t) := by
  have h1 : triOrient (verticesYPos a) (2, 1, 0) = -4 * a := by
    simp [triOrient, verticesYPos, orient2, pos2]; ring
  have h2 : triOrient (verticesYPos a) (0, 3, 2) = -4 * a := by
    simp [triOrient, verticesYPos, orient2, pos2]; ring
  have h3 : triOrient (verticesYPos a) (0, 1, 2) = 4 * a := by
    simp [triOrient, verticesYPos, orient2, pos2]; ring
  have h4 : triOrient (verticesYPos a) (2, 3, 0) = 4 * a := by
    simp [triOrient, verticesYPos, orient2, pos2]; ring
  constructor <;> intro t ht <;>
    simp [triangles, ccwIndexData, cwIndexData] at ht <;>
    rcases ht with rfl | rfl
  · rw [h1]; linarith
  · rw [h2]; linarith
  · rw [h3]; linarith
  · rw [h4]; linarith

/-- Witness for C4 at aspect ratio 1. -/
theorem C4_winding_orientation_witness :
    (∀ t ∈ triangles ccwIndexData, triOrient (verticesYPos 1) t < 0) ∧
    (∀ t ∈ triangles cwIndexData, 0 < triOrient (verticesYPos 1) t) :=
  C4_winding_orientation 1 (by norm_num)

/-- C5 counterexample: at aspect ratio 1, the per-vertex position lists of the
two variants differ - vertex 0 of the Y-up set is at (-1, 1, 1) while vertex 0
of the Y-down set is at (-1, -1, 1) - so the variants do not have identical
per-vertex positions. -/
theorem C5_counterexample :
    (verticesYPos 1).map Vertex.pos ≠ (verticesYNeg 1).map Vertex.pos ∧
    ((verticesYPos 1).getD 0 default).pos = (-1, 1, 1) ∧
    ((verticesYNeg 1).getD 0 default).pos = (-1, -1, 1) := by
  refine ⟨?_, by norm_num [verticesYPos], by norm_num [verticesYNeg]⟩
  intro hEq
  have h0 := congrArg (fun l => (l.getD 0 (-1, -1, -1)).2.1) hEq
  norm_num [verticesYPos, verticesYNeg] at h0

/-- C5 amended: the two vertex-set variants have identical per-vertex texture
coordinates and the same four corner positions as a multiset; corresponding
vertices have the same x and z but negated y positions, which is what flips
the texture-coordinate orientation relative to the geometry. -/
theorem C5_vertex_variants (a : ℚ) :
    (verticesYPos a).map Vertex.uv = (verticesYNeg a).map Vertex.uv ∧
    (verticesYNeg a).map Vertex.pos =
      (verticesYPos a).map (fun v => (v.pos.1, -v.pos.2.1, v.pos.2.2)) ∧
    ((verticesYPos a).map Vertex.pos).Perm ((verticesYNeg a).map Vertex.pos) := by
  refine ⟨by simp [verticesYPos, verticesYNeg], ?_, ?_⟩
  · simp [verticesYPos, verticesYNeg]
  · simp only [verticesYPos, verticesYNeg, List.map]
    exact (List.Perm.swap _ _ _).trans
      (List.Perm.cons _ (List.Perm.cons _ (List.Perm.swap _ _ _)))

end NegViewport
